import Mathlib

/-!
Verification of the agent-router service: a shallow embedding of
`app/database.py` (trajectory retrieval and formatting), `app/activities.py`
(the two Temporal activities) and `app/workflows.py` (the orchestrating
workflow), with theorems settling the specification's claims about tenant
isolation, candidate ranking, event formatting, and retry behaviour.
-/

set_option autoImplicit false
set_option maxRecDepth 100000

namespace AgentRouter

/-- JSON values, as stored in the `jsonb` columns of the trajectory store and
as manipulated by the Python code after decoding. Numbers are modelled as
integers (the payloads read here — coordinates, viewport sizes — are
integral; floating point is out of scope). -/
inductive Json where
  | null : Json
  | bool (b : Bool) : Json
  | num (n : Int) : Json
  | str (s : String) : Json
  | arr (elems : List Json) : Json
  | obj (fields : List (String × Json)) : Json

/-- Key lookup in a JSON object (first binding wins; `jsonb` keys are unique).
Models both the SQL `->` operator applied with a text key and Python
`dict.get` on the decoded value: `none` for a missing key or a non-object. -/
def Json.get? : Json → String → Option Json
  | .obj fields, k => fields.lookup k
  | _, _ => none

/-- Python truthiness of a decoded JSON value (`if not tool_req_data:` etc.):
`None`, `False`, `0`, `""`, `[]` and `{}` are falsy. -/
def Json.truthy : Json → Bool
  | .null => false
  | .bool b => b
  | .num n => n != 0
  | .str s => !(s == "")
  | .arr elems => !elems.isEmpty
  | .obj fields => !fields.isEmpty

/-- Hexadecimal digit, lower case, for JSON control-character escapes. -/
def hexDigit (n : Nat) : Char :=
  if n < 10 then Char.ofNat (48 + n) else Char.ofNat (87 + n)

/-- Escaping of one character as performed by `json.dumps` with
`ensure_ascii=False`: only the quote, the backslash and control characters
are escaped; everything else passes through unchanged. -/
def jsonEscapeChar (c : Char) : String :=
  if c = '"' then "\\\""
  else if c = '\\' then "\\\\"
  else if c = '\n' then "\\n"
  else if c = '\t' then "\\t"
  else if c = '\r' then "\\r"
  else if c.toNat = 8 then "\\b"
  else if c.toNat = 12 then "\\f"
  else if c.toNat < 32 then
    "\\u00" ++ String.mk [hexDigit (c.toNat / 16), hexDigit (c.toNat % 16)]
  else String.mk [c]

/-- String-body escaping of `json.dumps(…, ensure_ascii=False)`. -/
def jsonEscape (s : String) : String :=
  String.join (s.toList.map jsonEscapeChar)

mutual

/-- Serialization as `json.dumps(v, ensure_ascii=False)` with the default separators
`", "` and `": "`, preserving insertion order of object keys. -/
def Json.dumps : Json → String
  | .null => "null"
  | .bool true => "true"
  | .bool false => "false"
  | .num n => toString n
  | .str s => "\"" ++ jsonEscape s ++ "\""
  | .arr elems => "[" ++ Json.dumpsList elems ++ "]"
  | .obj fields => "\x7b" ++ Json.dumpsFields fields ++ "\x7d"

/-- Comma-separated serialization of array elements. -/
def Json.dumpsList : List Json → String
  | [] => ""
  | [j] => j.dumps
  | j :: rest => j.dumps ++ ", " ++ Json.dumpsList rest

/-- Comma-separated serialization of object fields. -/
def Json.dumpsFields : List (String × Json) → String
  | [] => ""
  | [(k, v)] => "\"" ++ jsonEscape k ++ "\": " ++ v.dumps
  | (k, v) :: rest =>
    "\"" ++ jsonEscape k ++ "\": " ++ v.dumps ++ ", " ++ Json.dumpsFields rest

end

/-- Substring containment on character lists: `needle` occurs contiguously in
`hay`. Models Python's `needle in hay` for strings. -/
def listContains : List Char → List Char → Bool
  | [], needle => needle.isEmpty
  | c :: rest, needle => needle.isPrefixOf (c :: rest) || listContains rest needle

/-- Python's substring test `needle in hay`. -/
def strContains (hay needle : String) : Bool :=
  listContains hay.toList needle.toList

/-- One pass of Python's `str.replace`: left-to-right, non-overlapping
replacement of every occurrence of `pat` by `rep`. The fuel argument (the
length of the remaining input) only drives the structural recursion. -/
def replaceFuel (rep pat : List Char) : Nat → List Char → List Char
  | 0, s => s
  | fuel + 1, s =>
    match s with
    | [] => []
    | c :: rest =>
      if pat.isPrefixOf (c :: rest) then
        rep ++ replaceFuel rep pat fuel (rest.drop (pat.length - 1))
      else
        c :: replaceFuel rep pat fuel rest

/-- Python's `s.replace(pat, rep)` for a non-empty pattern (the only use
here: stripping the `_localizer_web` / `_web` suffix variants). -/
def pyReplace (s pat rep : String) : String :=
  String.mk (replaceFuel rep.toList pat.toList s.toList.length s.toList)

/-- Postgres text rendering of a `jsonb` value, as produced by the `->>`
operator: strings give their content, booleans `true`/`false`, numbers their
decimal text, objects and arrays their JSON serialization. -/
def Json.pgText : Json → String
  | .str s => s
  | .bool true => "true"
  | .bool false => "false"
  | .num n => toString n
  | .null => "null"
  | j => j.dumps

/-- The SQL operator `j ->> k`: `none` models SQL NULL (missing key, non-object
value, or a JSON null field). -/
def Json.getText? (j : Json) (k : String) : Option String :=
  match j.get? k with
  | none => none
  | some .null => none
  | some v => some v.pgText

/-- Python `d[k] = v` on an insertion-ordered dictionary: replaces the value
in place if the key is present, else appends the binding at the end. -/
def dictSet : List (String × Json) → String → Json → List (String × Json)
  | [], k, v => [(k, v)]
  | (k', v') :: rest, k, v =>
    if k' = k then (k, v) :: rest else (k', v') :: dictSet rest k v

/-- A row of the `trajectory` table (the columns read by the queries of
`TrajectoryDatabase.get_similar_trajectory`). -/
structure TrajectoryRow where
  id : Nat
  start_url : String
  objective : String
  status : String
  error : Option String
  run_settings : Json
  org_id : Option String
  created_at : Int

/-- A row of the `trajectory_event` table (the columns read by the queries). -/
structure EventRow where
  trajectory_id : Nat
  index : Int
  type : String
  data : Json

/-- The relational store: the two tables read by `TrajectoryDatabase`. -/
structure DB where
  trajectories : List TrajectoryRow
  trajectory_events : List EventRow

/-- The SQL path `te.data->'event'->'tool_req'`. -/
def EventRow.toolReq (e : EventRow) : Option Json :=
  (e.data.get? "event").bind (·.get? "tool_req")

/-- The SQL path `te.data->'event'->'result'`. -/
def EventRow.toolResult (e : EventRow) : Option Json :=
  (e.data.get? "event").bind (·.get? "result")

/-- The SQL path `te.data->'event'->>'kind'`. -/
def EventRow.kind (e : EventRow) : Option String :=
  (e.data.get? "event").bind (·.getText? "kind")

/-- The placeholder org ids rejected by the gate on line 60 of database.py. -/
def placeholderOrgIds : List String := ["your-org-id-here", "test", "example"]

/-- The filter `LIKE '%success=True%'` applied to a possibly-NULL text value. -/
def likeContains (o : Option String) (pat : String) : Bool :=
  match o with
  | none => false
  | some s => strContains s pat

/-- The `EXISTS` subquery of the candidate search (lines 74–81): the
trajectory has an `AgentEvent` row of kind `tool_result` whose tool name is
`answer` and whose result text contains `success=True`. -/
def hasSuccessfulAnswerEvent (db : DB) (tid : Nat) : Bool :=
  db.trajectory_events.any fun te =>
    te.trajectory_id == tid && te.type == "AgentEvent"
      && (te.kind == some "tool_result")
      && ((te.toolReq.bind (·.getText? "tool_name")) == some "answer")
      && likeContains ((te.data.get? "event").bind (·.getText? "result")) "success=True"

/-- The filter `run_settings->'web'->>'headless' = 'true'` (line 71). -/
def headlessFilter (t : TrajectoryRow) : Bool :=
  ((t.run_settings.get? "web").bind (·.getText? "headless")) == some "true"

/-- The WHERE clause of the candidate-search query (lines 68–81). The store's
`pg_trgm` `similarity` function is a parameter `sim` of the model. -/
def eligibleCandidate (sim : String → String → ℚ) (db : DB)
    (task_objective start_url org_id : String) (t : TrajectoryRow) : Bool :=
  t.start_url == start_url && t.status == "completed" && t.error == none
    && headlessFilter t
    && decide (sim t.objective task_objective > mkRat 1 10)
    && t.org_id == some org_id
    && hasSuccessfulAnswerEvent db t.id

/-- Strict precedence under `ORDER BY similarity DESC, created_at DESC`
(lines 82–84): `a` sorts strictly before `b`. -/
def ranksAbove (sim : String → String → ℚ) (task_objective : String)
    (a b : TrajectoryRow) : Bool :=
  decide (sim a.objective task_objective > sim b.objective task_objective)
    || (decide (sim a.objective task_objective = sim b.objective task_objective)
        && decide (a.created_at > b.created_at))

/-- The `LIMIT 1` row of the ordered candidates: a maximum of the list under
`ranksAbove`. A full tie (equal score and equal creation time) is broken
arbitrarily, as the SQL ordering leaves it unspecified. -/
def pickTop (sim : String → String → ℚ) (task_objective : String) :
    List TrajectoryRow → Option TrajectoryRow
  | [] => none
  | t :: rest =>
    match pickTop sim task_objective rest with
    | none => some t
    | some b => if ranksAbove sim task_objective t b then some t else some b

/-- Lines 64–89 of database.py: the candidate-search query — filter by the
WHERE clause, order by similarity then recency, keep the top row. -/
def selectTrajectory (sim : String → String → ℚ) (db : DB)
    (task_objective start_url org_id : String) : Option TrajectoryRow :=
  pickTop sim task_objective
    (db.trajectories.filter (eligibleCandidate sim db task_objective start_url org_id))

/-- Ordered insertion of an event row by `index`. -/
def insertEvent (e : EventRow) : List EventRow → List EventRow
  | [] => [e]
  | x :: xs => if e.index ≤ x.index then e :: x :: xs else x :: insertEvent e xs

/-- Sort event rows by `index` ascending (`ORDER BY te.index`; the relative
order of rows sharing an index is unspecified in SQL). -/
def sortEvents : List EventRow → List EventRow
  | [] => []
  | e :: rest => insertEvent e (sortEvents rest)

/-- Lines 97–111: the event query — `AgentEvent` rows of kind `tool_result`
for the selected trajectory, ordered by `index` ascending. -/
def fetchEvents (db : DB) (tid : Nat) : List EventRow :=
  sortEvents (db.trajectory_events.filter fun te =>
    te.trajectory_id == tid && te.type == "AgentEvent"
      && (te.kind == some "tool_result"))

/-- Python `key in j` on a decoded JSON value: key membership for objects,
substring test for strings, element membership for arrays; `Except.error ()`
models the `TypeError` raised on numbers, booleans and `None` — an exception
that escapes the loop and is caught by the outer handler of
`get_similar_trajectory`, which returns `None` for the whole retrieval. -/
def pyIn (key : String) : Json → Except Unit Bool
  | .obj fields => .ok (fields.any fun kv => kv.1 == key)
  | .str s => .ok (strContains s key)
  | .arr elems => .ok (elems.any fun e =>
      match e with
      | .str s => s == key
      | _ => false)
  | _ => .error ()

/-- Python `j[key]` with a string key: object lookup; `TypeError` or
`KeyError` (modelled as `Except.error ()`) otherwise. -/
def pyIndex (j : Json) (key : String) : Except Unit Json :=
  match j with
  | .obj fields =>
    match fields.lookup key with
    | some v => .ok v
    | none => .error ()
  | _ => .error ()

/-- Lines 156–163 of database.py: attach `coordinates` from the result's
`localizer_output` when it carries both `x` and `y`. -/
def addCoordinates (details : List (String × Json)) (res : Option Json) :
    Except Unit (List (String × Json)) := do
  match res with
  | none => return details
  | some r =>
    if !r.truthy then return details
    else
      let hasLo ← pyIn "localizer_output" r
      if !hasLo then return details
      else
        let lo ← pyIndex r "localizer_output"
        let hasX ← pyIn "x" lo
        let hasY ← pyIn "y" lo
        if hasX && hasY then
          let x ← pyIndex lo "x"
          let y ← pyIndex lo "y"
          return dictSet details "coordinates" (Json.obj [("x", x), ("y", y)])
        else return details

/-- Lines 166–169: attach the result's `viewport_size` when present. -/
def addViewport (details : List (String × Json)) (res : Option Json) :
    Except Unit (List (String × Json)) := do
  match res with
  | none => return details
  | some r =>
    if !r.truthy then return details
    else
      let hasV ← pyIn "viewport_size" r
      if hasV then
        let v ← pyIndex r "viewport_size"
        return dictSet details "viewport_size" v
      else return details

/-- Lines 172–175: attach the result's `element` unless the args already
carry one. -/
def addElement (details : List (String × Json)) (res : Option Json) :
    Except Unit (List (String × Json)) := do
  match res with
  | none => return details
  | some r =>
    if !r.truthy then return details
    else
      let hasE ← pyIn "element" r
      if hasE && !(details.any fun kv => kv.1 == "element") then
        let v ← pyIndex r "element"
        return dictSet details "element" v
      else return details

/-- Lines 119–175 of database.py: processing of one event row of the
formatting loop. `.ok none` models `continue` (the event is skipped);
`.ok (some (name, details))` is a surviving step — its simplified tool name
and serialized action details, ready to be numbered; `.error ()` models a
Python exception escaping the loop (caught by the outer handler, which
returns `None` for the whole retrieval). `json.loads` on string-valued
`jsonb` payloads is modelled as failing (the store holds structured objects,
not doubly-encoded JSON text), hence the `continue` for a string `tool_req`
and the `None` result for a string `tool_result`. -/
def processEvent (tool_req_data tool_result_data : Option Json) :
    Except Unit (Option (String × String)) := do
  match tool_req_data with
  | none => return none
  | some req =>
    -- line 121: `if not tool_req_data: continue`
    if !req.truthy then return none
    else
      match req with
      | .str _ => return none
      | _ =>
        let res : Option Json :=
          match tool_result_data with
          | some (.str _) => none
          | r => r
        -- lines 137–142: tool name and original args
        let tool_name : Json := (req.get? "tool_name").getD (Json.str "unknown")
        let tool_args : Json := (req.get? "args").getD (Json.obj [])
        -- line 145: `if tool_name == "answer" or "answer" in tool_name: continue`
        let isAnswer ←
          match tool_name with
          | .str tn => pure (tn == "answer" || strContains tn "answer")
          | other => pyIn "answer" other
        if isAnswer then return none
        else
          match tool_name with
          | .str tn =>
            -- lines 148–151: strip the `_localizer_web` / `_web` suffix variants
            let simplified_name := pyReplace (pyReplace tn "_localizer_web" "") "_web" ""
            -- line 154: `action_details = dict(tool_args)`
            match tool_args with
            | .obj initial => do
              let d1 ← addCoordinates initial res
              let d2 ← addViewport d1 res
              let d3 ← addElement d2 res
              return some (simplified_name, Json.dumps (Json.obj d3))
            | _ => .error ()
          | _ => .error ()  -- non-string tool name: `.replace` raises

/-- Lines 117–181 of database.py: the formatting loop. Each surviving event
becomes the line `"{step_num}. {simplified_name}({details})"`, with
`step_num` incremented only on emission, so numbering is over survivors. -/
def formatSteps : Nat → List (Option Json × Option Json) → Except Unit (List String)
  | _, [] => .ok []
  | step_num, (req, res) :: rest => do
    match ← processEvent req res with
    | none => formatSteps step_num rest
    | some (name, details) =>
      let lines ← formatSteps (step_num + 1) rest
      return s!"{step_num}. {name}({details})" :: lines

/-- The `(index, tool_req, tool_result)` projection of the event query
(lines 97–107), as consumed by the loop (the index is discarded). -/
def eventPairs (events : List EventRow) : List (Option Json × Option Json) :=
  events.map fun e => (e.toolReq, e.toolResult)

/-- The statements `get_similar_trajectory` issues to the store, in order. -/
inductive StoreOp where
  | createExtension : StoreOp
  | candidateQuery : StoreOp
  | eventsQuery : StoreOp
deriving DecidableEq

/-- Lines 39–192 of database.py: `get_similar_trajectory`, instrumented with
the list of statements issued to the store, in order. The store's `pg_trgm`
`similarity` function is the parameter `sim`. The first component is the
Python return value (`none` for `None`). The session body opens with the
best-effort `CREATE EXTENSION IF NOT EXISTS pg_trgm` (lines 42–47), before
the org gate of lines 54–62. -/
def get_similar_trajectory (sim : String → String → ℚ) (db : DB)
    (task_objective start_url : String) (org_id : Option String) :
    Option String × List StoreOp :=
  let ops := [StoreOp.createExtension]
  -- lines 54–56: `if not org_id: return None` (absent or empty string)
  match org_id with
  | none => (none, ops)
  | some oid =>
    if oid == "" then (none, ops)
    -- lines 60–62: placeholder org ids are rejected
    else if placeholderOrgIds.contains oid then (none, ops)
    else
      let ops := ops ++ [StoreOp.candidateQuery]
      match selectTrajectory sim db task_objective start_url oid with
      | none => (none, ops)
      | some t =>
        let ops := ops ++ [StoreOp.eventsQuery]
        let events := fetchEvents db t.id
        -- line 113: `if not events: return None`
        if events.isEmpty then (none, ops)
        else
          match formatSteps 1 (eventPairs events) with
          | .error () => (none, ops)  -- lines 189–192: caught, returns None
          | .ok steps => (some (String.intercalate "\n" steps), ops)

/-- The header prepended by `format_trajectory_as_instructions`
(lines 208–215 of database.py). -/
def instructionsHeader : String :=
  "\n# CRITICAL: Execute the reference trajectory EXACTLY\n\n"
    ++ "⚠️ DO NOT answer or make assumptions before executing ALL trajectory steps.\n\n"
    ++ "You MUST:\n"
    ++ "1. Execute EVERY step from the trajectory below with the provided coordinates\n"
    ++ "2. Use multiple tool_calls in a SINGLE response to run many steps at once\n"
    ++ "3. Wait for observations before answering\n"
    ++ "4. ONLY answer after completing the trajectory and seeing the actual data\n\n"
    ++ "## Reference Trajectory (execute with exact coordinates):\n\n"

/-- Lines 194–217 of database.py: `format_trajectory_as_instructions`. An
empty (falsy) input gives the empty string; an input already carrying the
marker `"## Similar Trajectory"` is returned as is; otherwise the fixed
directive header is prepended. -/
def format_trajectory_as_instructions (trajectory : String) : String :=
  if trajectory == "" then ""
  else if strContains trajectory "## Similar Trajectory" then trajectory
  else instructionsHeader ++ trajectory

/-- The task shape `{objective, start_url}` of models.py. -/
structure Task where
  objective : String
  start_url : String
deriving DecidableEq

/-- Lines 10–46 of activities.py: the body of the `retrieve_trajectory`
activity (one attempt, given the store contents). A found, truthy trajectory
string is formatted and appended to the objective; otherwise the original
task is returned. -/
def retrieve_trajectory (sim : String → String → ℚ) (db : DB)
    (task : Task) (org_id : Option String) : Task :=
  match (get_similar_trajectory sim db task.objective task.start_url org_id).1 with
  | none => task
  | some trajectory =>
    -- line 32: `if trajectory:` — the empty string is falsy
    if trajectory == "" then task
    else
      { objective := task.objective ++ format_trajectory_as_instructions trajectory,
        start_url := task.start_url }

/-- The outcome of the single `httpx` POST performed by `launch_agent`:
either a transport-level error, or a response with a status code and a body
(`none` for a body that does not decode as JSON). -/
inductive HttpOutcome where
  | transportError (msg : String) : HttpOutcome
  | response (status : Nat) (body : Option Json) : HttpOutcome

/-- The `{success, result, error}` dictionaries produced by the pipeline
steps; an absent key is `none`. -/
structure StepResult where
  success : Bool
  result : Option Json := none
  error : Option String := none

/-- Completion of one Temporal activity attempt: a returned value, or a
raised exception that fails the attempt. -/
inductive ActivityOutcome (α : Type) where
  | completed (value : α) : ActivityOutcome α
  | failed (err : String) : ActivityOutcome α

/-- The text `str(e)` of the `httpx.HTTPStatusError` raised by `raise_for_status` on
a non-2xx response (modelled: non-empty descriptive text carrying the code). -/
def statusErrorMessage (status : Nat) : String :=
  "HTTP status error " ++ toString status

/-- Lines 50–103 of activities.py: one attempt of the `launch_agent`
activity, as a function of the HTTP outcome of its single POST. A transport
error or a non-2xx status (both `httpx.HTTPError`s) is caught and returned
as `{success: false, error: str(e)}`; a 2xx response with decoded body `j`
returns `{success: true, result: j}` with the payload passed through
uninterpreted. A 2xx response whose body fails to decode raises outside the
`except httpx.HTTPError` clause, so that attempt fails. -/
def launch_agent (outcome : HttpOutcome) : ActivityOutcome StepResult :=
  match outcome with
  | .transportError msg => .completed { success := false, error := some msg }
  | .response status body =>
    if 200 ≤ status ∧ status ≤ 299 then
      match body with
      | some j => .completed { success := true, result := some j }
      | none => .failed "json.JSONDecodeError"
    else
      .completed { success := false, error := some (statusErrorMessage status) }

/-- A Temporal `RetryPolicy` (the fields set in workflows.py). -/
structure RetryPolicy where
  maximum_attempts : Nat
  initial_interval_s : Nat
  maximum_interval_s : Nat

/-- workflows.py lines 39–43: the retry policy of the retrieval step. -/
def retrieveRetryPolicy : RetryPolicy :=
  { maximum_attempts := 3, initial_interval_s := 1, maximum_interval_s := 10 }

/-- workflows.py lines 53–57: the retry policy of the launch step. -/
def launchRetryPolicy : RetryPolicy :=
  { maximum_attempts := 2, initial_interval_s := 5, maximum_interval_s := 30 }

/-- Temporal's per-activity retry loop under `maximum_attempts = budget`:
attempts run until one completes (its value is the activity's result — a
completed attempt is never retried) or the budget is exhausted (the last
failure propagates). `attempt i` is the outcome of the (i+1)-th attempt. -/
def runWithRetry {α : Type} (attempt : Nat → ActivityOutcome α) :
    Nat → Nat → ActivityOutcome α
  | _, 0 => .failed "maximum_attempts exhausted"
  | i, budget + 1 =>
    match attempt i with
    | .completed v => .completed v
    | .failed e => if budget = 0 then .failed e else runWithRetry attempt (i + 1) budget

/-- The number of attempts the retry loop actually makes. -/
def attemptsUsed {α : Type} (attempt : Nat → ActivityOutcome α) :
    Nat → Nat → Nat
  | _, 0 => 0
  | i, budget + 1 =>
    match attempt i with
    | .completed _ => 1
    | .failed _ => if budget = 0 then 1 else 1 + attemptsUsed attempt (i + 1) budget

/-- Lines 19–61 of workflows.py: `AgentRouterWorkflow.run`. The two activity
executions are parameters: `retrieveAttempt i` is the outcome of the
(i+1)-th attempt of `retrieve_trajectory`, and `launchAttempt t i` of
`launch_agent` on the enhanced task `t`. No handler surrounds either
`execute_activity`, so an exhausted-retry failure of the retrieval step
propagates and fails the workflow. -/
def workflowRun (retrieveAttempt : Nat → ActivityOutcome Task)
    (launchAttempt : Task → Nat → ActivityOutcome StepResult) :
    ActivityOutcome StepResult :=
  match runWithRetry retrieveAttempt 0 retrieveRetryPolicy.maximum_attempts with
  | .failed e => .failed e
  | .completed enhanced =>
    runWithRetry (launchAttempt enhanced) 0 launchRetryPolicy.maximum_attempts

/-- An exception escaping the session body of `get_similar_trajectory`:
a `sqlalchemy.exc.ProgrammingError`, or any other exception. -/
inductive RetrievalError where
  | programmingError (msg : String) : RetrievalError
  | otherError (msg : String) : RetrievalError

/-- Lines 184–192 of database.py: the exception handlers of
`get_similar_trajectory`. `some none` means the exception is swallowed and
the function returns `None`; `none` means it is re-raised (the bare `raise`
of line 188, taken when a `ProgrammingError`'s text lacks
`"does not exist"`). -/
def handleRetrievalError : RetrievalError → Option (Option String)
  | .programmingError msg =>
    if strContains msg "does not exist" then some none else none
  | .otherError _ => some none

/-- The number of events of the formatting loop that survive (are emitted as
numbered lines): those whose processing yields a step payload. -/
def countSurvivors : List (Option Json × Option Json) → Nat
  | [] => 0
  | (req, res) :: rest =>
    match processEvent req res with
    | .ok (some _) => 1 + countSurvivors rest
    | _ => countSurvivors rest

/-!
Concrete fixtures for the witnesses: a store with one fully eligible
trajectory (three tool-result events, one of them an `answer` event), a
second store adding a rival candidate of lower similarity, and concrete
similarity functions standing in for `pg_trgm`'s `similarity`.
-/

/-- A similarity function: 1 on equal objectives, 0 otherwise. -/
def simExact : String → String → ℚ := fun a b => if a = b then 1 else 0

/-- A graded similarity function: 1 on equal objectives, 1/2 for the rival
objective, 0 otherwise. -/
def simGraded : String → String → ℚ := fun a b =>
  if a = b then 1 else if a = "find price quickly" then mkRat 1 2 else 0

/-- An eligible trajectory of tenant `org-123`. -/
def demoTrajectory : TrajectoryRow :=
  { id := 1, start_url := "https://x", objective := "find price",
    status := "completed", error := none,
    run_settings := Json.obj [("web", Json.obj [("headless", Json.bool true)])],
    org_id := some "org-123", created_at := 100 }

/-- A second eligible trajectory of the same tenant, same start url, lower
similarity under `simGraded`, older. -/
def rivalTrajectory : TrajectoryRow :=
  { id := 2, start_url := "https://x", objective := "find price quickly",
    status := "completed", error := none,
    run_settings := Json.obj [("web", Json.obj [("headless", Json.bool true)])],
    org_id := some "org-123", created_at := 50 }

/-- A click event with localizer coordinates in its result. -/
def clickEvent : EventRow :=
  { trajectory_id := 1, index := 0, type := "AgentEvent",
    data := Json.obj [("event", Json.obj
      [("kind", Json.str "tool_result"),
       ("tool_req", Json.obj [("tool_name", Json.str "click_localizer_web"),
                              ("args", Json.obj [("selector", Json.str "#buy")])]),
       ("result", Json.obj [("localizer_output",
                             Json.obj [("x", Json.num 10), ("y", Json.num 20)])])])] }

/-- A typing event with a viewport size in its result. -/
def typeEvent : EventRow :=
  { trajectory_id := 1, index := 1, type := "AgentEvent",
    data := Json.obj [("event", Json.obj
      [("kind", Json.str "tool_result"),
       ("tool_req", Json.obj [("tool_name", Json.str "type_web"),
                              ("args", Json.obj [("text", Json.str "hello")])]),
       ("result", Json.obj [("viewport_size", Json.obj [("w", Json.num 800)])])])] }

/-- The terminal successful `answer` event of trajectory 1. -/
def answerEvent : EventRow :=
  { trajectory_id := 1, index := 2, type := "AgentEvent",
    data := Json.obj [("event", Json.obj
      [("kind", Json.str "tool_result"),
       ("tool_req", Json.obj [("tool_name", Json.str "answer"),
                              ("args", Json.obj [("text", Json.str "42")])]),
       ("result", Json.str "ValidatedAnswer success=True")])] }

/-- The terminal successful `answer` event of trajectory 2. -/
def rivalAnswerEvent : EventRow :=
  { trajectory_id := 2, index := 0, type := "AgentEvent",
    data := Json.obj [("event", Json.obj
      [("kind", Json.str "tool_result"),
       ("tool_req", Json.obj [("tool_name", Json.str "answer"),
                              ("args", Json.obj [])]),
       ("result", Json.str "ValidatedAnswer success=True")])] }

/-- A store holding the single eligible trajectory and its three events. -/
def demoDB : DB :=
  { trajectories := [demoTrajectory],
    trajectory_events := [clickEvent, typeEvent, answerEvent] }

/-- A store holding two eligible candidates of the same tenant. -/
def rankDB : DB :=
  { trajectories := [demoTrajectory, rivalTrajectory],
    trajectory_events := [clickEvent, typeEvent, answerEvent, rivalAnswerEvent] }

/-!
## Theorems
-/

/-- C5: the launch step's outcome classification. A transport error or a
non-2xx HTTP response never propagates an exception — the activity completes
with `{success: false, error: <description>}` (and the description is
non-empty) — and a 2xx response with decoded body `j` completes with
`{success: true, result: j}`, the remote payload passed through verbatim and
uninterpreted. -/
theorem launch_step_outcome_classification :
    (∀ msg : String, launch_agent (.transportError msg) =
      ActivityOutcome.completed { success := false, error := some msg }) ∧
    (∀ (status : Nat) (body : Option Json), ¬(200 ≤ status ∧ status ≤ 299) →
      launch_agent (.response status body) =
        ActivityOutcome.completed
          { success := false, error := some (statusErrorMessage status) } ∧
      statusErrorMessage status ≠ "") ∧
    (∀ (status : Nat) (j : Json), 200 ≤ status → status ≤ 299 →
      launch_agent (.response status (some j)) =
        ActivityOutcome.completed { success := true, result := some j }) := by
  refine ⟨fun msg => rfl, fun status body h => ⟨?_, ?_⟩, fun status j h1 h2 => ?_⟩
  · simp [launch_agent, h]
  · intro hcon
    have hlen := congrArg String.length hcon
    simp [statusErrorMessage, String.length_append] at hlen
    exact absurd hlen.1 (by decide)
  · simp [launch_agent, h1, h2]

/-- C5 witness: the classification at a 500 response, a 200 response with
body, and a transport error. -/
theorem launch_step_outcome_classification_witness :
    launch_agent (.response 500 none) =
      ActivityOutcome.completed
        { success := false, error := some (statusErrorMessage 500) } ∧
    statusErrorMessage 500 ≠ "" ∧
    launch_agent (.response 200 (some (Json.str "ok"))) =
      ActivityOutcome.completed { success := true, result := some (Json.str "ok") } ∧
    launch_agent (.transportError "connection refused") =
      ActivityOutcome.completed { success := false, error := some "connection refused" } :=
  ⟨(launch_step_outcome_classification.2.1 500 none (by omega)).1,
   (launch_step_outcome_classification.2.1 500 none (by omega)).2,
   launch_step_outcome_classification.2.2 200 (Json.str "ok") (by omega) (by omega),
   launch_step_outcome_classification.1 "connection refused"⟩

/-- C3 counterexample: not every query failure is caught — a
`ProgrammingError` whose text lacks `"does not exist"` is re-raised by the
bare `raise` of line 188 (`handleRetrievalError` yields `none`, not a
swallowed `some none`), and an exhausted-retry failure of the retrieval
activity propagates out of `AgentRouterWorkflow.run`, aborting the run
instead of degrading to the original task. -/
theorem retrieval_failure_containment_counterexample :
    handleRetrievalError
        (RetrievalError.programmingError "syntax error at or near SELECT") = none ∧
    workflowRun (fun _ => ActivityOutcome.failed "database connection refused")
        (fun _ _ => ActivityOutcome.completed { success := true }) =
      ActivityOutcome.failed "database connection refused" :=
  ⟨rfl, rfl⟩

/-- C3 amended: a generic exception during retrieval is caught and treated
as "no trajectory found", and so is a `ProgrammingError` whose text contains
`"does not exist"`; but a `ProgrammingError` without that text is re-raised,
and a retrieval-step failure that exhausts its retries propagates and fails
the whole workflow run (the workflow installs no handler around the
retrieval activity). -/
theorem retrieval_failure_containment_amended :
    (∀ msg : String,
      handleRetrievalError (RetrievalError.otherError msg) = some none) ∧
    (∀ msg : String, strContains msg "does not exist" = true →
      handleRetrievalError (RetrievalError.programmingError msg) = some none) ∧
    (∀ msg : String, strContains msg "does not exist" = false →
      handleRetrievalError (RetrievalError.programmingError msg) = none) ∧
    (∀ (e : String) (launchAttempt : Task → Nat → ActivityOutcome StepResult),
      workflowRun (fun _ => ActivityOutcome.failed e) launchAttempt =
        ActivityOutcome.failed e) := by
  refine ⟨fun msg => rfl, fun msg h => ?_, fun msg h => ?_, fun e la => rfl⟩
  · simp [handleRetrievalError, h]
  · simp [handleRetrievalError, h]

/-- C3 amended witness: the three handler outcomes at concrete exception
texts, and workflow abortion at a concrete retrieval failure. -/
theorem retrieval_failure_containment_witness :
    handleRetrievalError
        (RetrievalError.programmingError "relation trajectory does not exist") =
      some none ∧
    handleRetrievalError (RetrievalError.otherError "connection reset") = some none ∧
    workflowRun (fun _ => ActivityOutcome.failed "boom")
        (fun _ _ => ActivityOutcome.completed { success := true }) =
      ActivityOutcome.failed "boom" :=
  ⟨retrieval_failure_containment_amended.2.1 _ (by decide),
   retrieval_failure_containment_amended.1 "connection reset",
   retrieval_failure_containment_amended.2.2.2 "boom" _⟩

/-- C4 counterexample: with the remote executor answering HTTP 500, the
launch activity catches the status error and completes with
`{success: false}`, so the orchestrator's retry loop makes exactly 1 attempt
— not the configured budget of `maximum_attempts = 2` the claim requires. -/
theorem launch_retry_exhaustion_counterexample :
    launchRetryPolicy.maximum_attempts = 2 ∧
    attemptsUsed (fun _ => launch_agent (.response 500 none)) 0
        launchRetryPolicy.maximum_attempts = 1 ∧
    (1 : Nat) ≠ 2 :=
  ⟨rfl, rfl, by omega⟩

/-- C4 amended: if retrieval completes and the remote executor returns HTTP
500 on every attempt, the run's result is `{success: false, error:
<non-empty>}` and the launch step is attempted exactly once: the launch
step's local error classification turns a non-2xx response into a normally
completed activity, so the retry policy, which only retries failed attempts,
performs no retry. -/
theorem launch_retry_exhaustion_amended
    (retrieveAttempt : Nat → ActivityOutcome Task) (t : Task)
    (launchAttempt : Task → Nat → ActivityOutcome StepResult)
    (bodies : Task → Nat → Option Json)
    (hr : runWithRetry retrieveAttempt 0 retrieveRetryPolicy.maximum_attempts =
      ActivityOutcome.completed t)
    (hl : ∀ (t' : Task) (i : Nat),
      launchAttempt t' i = launch_agent (.response 500 (bodies t' i))) :
    workflowRun retrieveAttempt launchAttempt =
      ActivityOutcome.completed
        { success := false, error := some (statusErrorMessage 500) } ∧
    statusErrorMessage 500 ≠ "" ∧
    attemptsUsed (launchAttempt t) 0 launchRetryPolicy.maximum_attempts = 1 := by
  have h500 : ∀ (t' : Task) (i : Nat), launchAttempt t' i =
      ActivityOutcome.completed
        { success := false, error := some (statusErrorMessage 500) } := by
    intro t' i
    rw [hl]
    rfl
  refine ⟨?_, by decide, ?_⟩
  · simp only [workflowRun, hr]
    simp [runWithRetry, h500, launchRetryPolicy]
  · simp [attemptsUsed, h500, launchRetryPolicy]

/-- C4 amended witness: the amended statement at a concrete task and a
constant HTTP-500 executor. -/
theorem launch_retry_exhaustion_witness :
    workflowRun (fun _ => ActivityOutcome.completed ⟨"find price", "https://x"⟩)
        (fun _ _ => launch_agent (.response 500 none)) =
      ActivityOutcome.completed
        { success := false, error := some (statusErrorMessage 500) } ∧
    statusErrorMessage 500 ≠ "" ∧
    attemptsUsed (fun _ => launch_agent (.response 500 none)) 0
        launchRetryPolicy.maximum_attempts = 1 :=
  launch_retry_exhaustion_amended
    (fun _ => ActivityOutcome.completed ⟨"find price", "https://x"⟩)
    ⟨"find price", "https://x"⟩
    (fun _ _ => launch_agent (.response 500 none))
    (fun _ _ => none) rfl (fun _ _ => rfl)

/-- Irreflexivity of `ranksAbove`: a row never sorts strictly before itself. -/
theorem ranksAbove_irrefl (sim : String → String → ℚ) (obj : String)
    (t : TrajectoryRow) : ranksAbove sim obj t t = false := by
  simp [ranksAbove, lt_irrefl]

/-- Unfolding of `ranksAbove … = false` into order facts: the row's score does
not exceed the other's, and on a score tie it is not more recent. -/
theorem ranksAbove_eq_false_iff (sim : String → String → ℚ) (obj : String)
    (a b : TrajectoryRow) :
    ranksAbove sim obj a b = false ↔
      (sim a.objective obj ≤ sim b.objective obj ∧
       (sim a.objective obj = sim b.objective obj → a.created_at ≤ b.created_at)) := by
  simp only [ranksAbove, Bool.or_eq_false_iff, Bool.and_eq_false_iff,
    decide_eq_false_iff_not, not_lt, gt_iff_lt]
  constructor
  · rintro ⟨h1, h2 | h2⟩
    · exact ⟨h1, fun he => absurd he h2⟩
    · exact ⟨h1, fun _ => h2⟩
  · rintro ⟨h1, h2⟩
    by_cases he : sim a.objective obj = sim b.objective obj
    · exact ⟨h1, Or.inr (h2 he)⟩
    · exact ⟨h1, Or.inl he⟩

/-- If `a` ranks strictly above `b` and `x` does not rank above `b`, then
`x` does not rank above `a` (the selection order is transitive enough for
the maximality argument). -/
theorem ranksAbove_false_of (sim : String → String → ℚ) (obj : String)
    (x a b : TrajectoryRow) (hab : ranksAbove sim obj a b = true)
    (hxb : ranksAbove sim obj x b = false) :
    ranksAbove sim obj x a = false := by
  rw [ranksAbove_eq_false_iff] at hxb ⊢
  simp only [ranksAbove, Bool.or_eq_true, Bool.and_eq_true, decide_eq_true_eq,
    gt_iff_lt] at hab
  rcases hab with h1 | ⟨h2, h3⟩
  · refine ⟨le_of_lt (lt_of_le_of_lt hxb.1 h1), fun he => ?_⟩
    exact absurd he (ne_of_lt (lt_of_le_of_lt hxb.1 h1))
  · refine ⟨h2 ▸ hxb.1, fun he => ?_⟩
    have hxe : sim x.objective obj = sim b.objective obj := he.trans h2
    exact le_of_lt (lt_of_le_of_lt (hxb.2 hxe) h3)

/-- Emptiness: `pickTop` only returns `none` on the empty candidate list. -/
theorem pickTop_eq_none (sim : String → String → ℚ) (obj : String) :
    ∀ (l : List TrajectoryRow), pickTop sim obj l = none → l = [] := by
  intro l h
  cases l with
  | nil => rfl
  | cons a rest =>
    simp only [pickTop] at h
    cases hr : pickTop sim obj rest with
    | none => rw [hr] at h; exact absurd h (by simp)
    | some b =>
      rw [hr] at h
      by_cases hc : ranksAbove sim obj a b = true <;> simp [hc] at h

/-- The row picked by `pickTop` belongs to the candidate list. -/
theorem pickTop_mem (sim : String → String → ℚ) (obj : String) :
    ∀ (l : List TrajectoryRow) (t : TrajectoryRow),
      pickTop sim obj l = some t → t ∈ l := by
  intro l
  induction l with
  | nil => intro t h; exact absurd h (by simp [pickTop])
  | cons a rest ih =>
    intro t h
    simp only [pickTop] at h
    cases hr : pickTop sim obj rest with
    | none =>
      rw [hr] at h
      injection h with h'
      subst h'
      exact List.mem_cons_self a rest
    | some b =>
      rw [hr] at h
      by_cases hc : ranksAbove sim obj a b = true
      · simp only [hc, if_true] at h
        injection h with h'
        subst h'
        exact List.mem_cons_self a rest
      · simp only [hc, if_false] at h
        injection h with h'
        subst h'
        exact List.mem_cons_of_mem a (ih b hr)

/-- The row picked by `pickTop` is maximal: no candidate ranks above it. -/
theorem pickTop_max (sim : String → String → ℚ) (obj : String) :
    ∀ (l : List TrajectoryRow) (t : TrajectoryRow),
      pickTop sim obj l = some t →
      ∀ x ∈ l, ranksAbove sim obj x t = false := by
  intro l
  induction l with
  | nil => intro t h; exact absurd h (by simp [pickTop])
  | cons a rest ih =>
    intro t h x hx
    simp only [pickTop] at h
    cases hr : pickTop sim obj rest with
    | none =>
      rw [hr] at h
      injection h with h'
      subst h'
      have hrest := pickTop_eq_none sim obj rest hr
      subst hrest
      rcases List.mem_singleton.mp hx with rfl
      exact ranksAbove_irrefl sim obj _
    | some b =>
      rw [hr] at h
      by_cases hc : ranksAbove sim obj a b = true
      · simp only [hc, if_true] at h
        injection h with h'
        subst h'
        rcases List.mem_cons.mp hx with rfl | hx'
        · exact ranksAbove_irrefl sim obj _
        · exact ranksAbove_false_of sim obj _ _ b hc (ih b hr x hx')
      · simp only [hc, if_false] at h
        injection h with h'
        subst h'
        rcases List.mem_cons.mp hx with rfl | hx'
        · exact Bool.eq_false_iff.mpr hc
        · exact ih b hr x hx'

/-- The WHERE clause unfolded into its individual conditions. -/
theorem eligibleCandidate_eq_true_iff (sim : String → String → ℚ) (db : DB)
    (objv url oid : String) (t : TrajectoryRow) :
    eligibleCandidate sim db objv url oid t = true ↔
      (t.start_url = url ∧ t.status = "completed" ∧ t.error = none ∧
       headlessFilter t = true ∧ sim t.objective objv > mkRat 1 10 ∧
       t.org_id = some oid ∧ hasSuccessfulAnswerEvent db t.id = true) := by
  simp [eligibleCandidate, Bool.and_eq_true, and_assoc]

/-- A selected trajectory passed the whole WHERE clause. -/
theorem selectTrajectory_eligible (sim : String → String → ℚ) (db : DB)
    (objv url oid : String) (t : TrajectoryRow)
    (h : selectTrajectory sim db objv url oid = some t) :
    eligibleCandidate sim db objv url oid t = true :=
  (List.mem_filter.mp (pickTop_mem sim objv _ t h)).2

/-- If no stored trajectory passes the WHERE clause, the candidate query
returns no row. -/
theorem selectTrajectory_eq_none (sim : String → String → ℚ) (db : DB)
    (objv url oid : String)
    (h : ∀ t' ∈ db.trajectories, eligibleCandidate sim db objv url oid t' = false) :
    selectTrajectory sim db objv url oid = none := by
  unfold selectTrajectory
  have hnil : db.trajectories.filter (eligibleCandidate sim db objv url oid) = [] := by
    rw [List.filter_eq_nil_iff]
    intro t' ht'
    simp [h t' ht']
  rw [hnil]
  rfl

/-- C1: tenant-isolation eligibility invariant. Any trajectory the candidate
query selects satisfies every eligibility condition — it belongs to the
requesting tenant (`org_id` equal to the requester's), matches the start
url, has status `completed`, no recorded error, ran headless, has trigram
similarity of objectives strictly above 1/10, and has a successful validated
answer event — so no trajectory failing any one condition is ever selected;
and whenever the retrieval returns a trajectory string (from which the
enhanced task is built), the tenant id passed the gate and the selected
trajectory's `org_id` equals it. -/
theorem tenant_isolation_eligibility (sim : String → String → ℚ) (db : DB)
    (objv url : String) :
    (∀ (oid : String) (t : TrajectoryRow),
      selectTrajectory sim db objv url oid = some t →
      t.org_id = some oid ∧ t.start_url = url ∧ t.status = "completed" ∧
      t.error = none ∧ headlessFilter t = true ∧
      sim t.objective objv > mkRat 1 10 ∧
      hasSuccessfulAnswerEvent db t.id = true) ∧
    (∀ (org_id : Option String) (s : String),
      (get_similar_trajectory sim db objv url org_id).1 = some s →
      ∃ (oid : String) (t : TrajectoryRow), org_id = some oid ∧
        selectTrajectory sim db objv url oid = some t ∧ t.org_id = some oid) := by
  constructor
  · intro oid t h
    have helig := (eligibleCandidate_eq_true_iff sim db objv url oid t).mp
      (selectTrajectory_eligible sim db objv url oid t h)
    exact ⟨helig.2.2.2.2.2.1, helig.1, helig.2.1, helig.2.2.1, helig.2.2.2.1,
      helig.2.2.2.2.1, helig.2.2.2.2.2.2⟩
  · intro org_id s h
    cases org_id with
    | none => simp [get_similar_trajectory] at h
    | some oid =>
      simp only [get_similar_trajectory] at h
      split at h
      · exact absurd h (by simp)
      · split at h
        · exact absurd h (by simp)
        · cases hsel : selectTrajectory sim db objv url oid with
          | none => rw [hsel] at h; exact absurd h (by simp)
          | some t =>
            rw [hsel] at h
            have horg := (eligibleCandidate_eq_true_iff sim db objv url oid t).mp
              (selectTrajectory_eligible sim db objv url oid t hsel)
            exact ⟨oid, t, rfl, hsel, horg.2.2.2.2.2.1⟩

/-- C1 witness: the invariant at a concrete store, similarity function and
selected trajectory. -/
theorem tenant_isolation_eligibility_witness :
    (demoTrajectory.org_id = some "org-123" ∧
     demoTrajectory.start_url = "https://x" ∧
     demoTrajectory.status = "completed" ∧ demoTrajectory.error = none ∧
     headlessFilter demoTrajectory = true ∧
     simExact demoTrajectory.objective "find price" > mkRat 1 10 ∧
     hasSuccessfulAnswerEvent demoDB demoTrajectory.id = true) ∧
    (∃ (oid : String) (t : TrajectoryRow),
      (some "org-123" : Option String) = some oid ∧
      selectTrajectory simExact demoDB "find price" "https://x" oid = some t ∧
      t.org_id = some oid) :=
  ⟨(tenant_isolation_eligibility simExact demoDB "find price" "https://x").1
      "org-123" demoTrajectory rfl,
   (tenant_isolation_eligibility simExact demoDB "find price" "https://x").2
      (some "org-123")
      ("1. click(\x7b\"selector\": \"#buy\", \"coordinates\": \x7b\"x\": 10, \"y\": 20\x7d\x7d)\n2. type(\x7b\"text\": \"hello\", \"viewport_size\": \x7b\"w\": 800\x7d\x7d)")
      rfl⟩

/-- C6: candidate ranking. The selected trajectory qualifies, and among all
qualifying candidates in the store none has a higher similarity score, and
none with an equal score is more recent; when no candidate qualifies, the
retrieval step returns the task unchanged. -/
theorem candidate_ranking (sim : String → String → ℚ) (db : DB) :
    (∀ (objv url oid : String) (t : TrajectoryRow),
      selectTrajectory sim db objv url oid = some t →
      eligibleCandidate sim db objv url oid t = true ∧
      ∀ t' ∈ db.trajectories, eligibleCandidate sim db objv url oid t' = true →
        sim t'.objective objv ≤ sim t.objective objv ∧
        (sim t'.objective objv = sim t.objective objv →
          t'.created_at ≤ t.created_at)) ∧
    (∀ (task : Task) (org_id : Option String),
      (∀ (oid : String), org_id = some oid →
        ∀ t' ∈ db.trajectories,
          eligibleCandidate sim db task.objective task.start_url oid t' = false) →
      retrieve_trajectory sim db task org_id = task) := by
  constructor
  · intro objv url oid t h
    refine ⟨selectTrajectory_eligible sim db objv url oid t h, ?_⟩
    intro t' ht' helig'
    have hmax := pickTop_max sim objv _ t h t'
      (List.mem_filter.mpr ⟨ht', helig'⟩)
    exact (ranksAbove_eq_false_iff sim objv t' t).mp hmax
  · intro task org_id hnone
    cases org_id with
    | none => rfl
    | some oid =>
      unfold retrieve_trajectory
      by_cases h1 : oid == ""
      · simp [get_similar_trajectory, h1]
      · by_cases h2 : oid ∈ placeholderOrgIds
        · simp [get_similar_trajectory, h1, h2]
        · have hsel := selectTrajectory_eq_none sim db task.objective
            task.start_url oid (hnone oid rfl)
          simp [get_similar_trajectory, h1, h2, hsel]

/-- C6 witness: with two qualifying candidates of similarity 1 and 1/2 the
higher-scored one is selected and dominates every qualifying candidate; and
with an objective, url and tenant matching nothing, the task is returned
unchanged. -/
theorem candidate_ranking_witness :
    (eligibleCandidate simGraded rankDB "find price" "https://x" "org-123"
        demoTrajectory = true ∧
     ∀ t' ∈ rankDB.trajectories,
       eligibleCandidate simGraded rankDB "find price" "https://x" "org-123" t' = true →
       simGraded t'.objective "find price" ≤
         simGraded demoTrajectory.objective "find price" ∧
       (simGraded t'.objective "find price" =
          simGraded demoTrajectory.objective "find price" →
        t'.created_at ≤ demoTrajectory.created_at)) ∧
    retrieve_trajectory simExact rankDB ⟨"look for shoes", "https://nowhere"⟩
      (some "org-999") = ⟨"look for shoes", "https://nowhere"⟩ :=
  ⟨(candidate_ranking simGraded rankDB).1 "find price" "https://x" "org-123"
      demoTrajectory rfl,
   (candidate_ranking simExact rankDB).2 ⟨"look for shoes", "https://nowhere"⟩
      (some "org-999")
      (fun oid hoid => by
        obtain rfl : oid = "org-999" := (Option.some.inj hoid).symm
        decide)⟩

/-- Bind on `Except` reduces on a success value. -/
@[simp] theorem exceptBindOk {α β : Type} (a : α) (f : α → Except Unit β) :
    (Except.ok a >>= f) = f a := rfl

/-- Bind on `Except` short-circuits on an error. -/
@[simp] theorem exceptBindError {α β : Type} (u : Unit) (f : α → Except Unit β) :
    ((Except.error u : Except Unit α) >>= f) = Except.error u := rfl

/-- An event whose tool name is `answer` or contains it as a substring is
skipped by the `continue` of line 145, whatever its result payload. -/
theorem processEvent_answer_skip (req : Json) (res : Option Json) (tn : String)
    (htn : (req.get? "tool_name").getD (Json.str "unknown") = Json.str tn)
    (hans : tn = "answer" ∨ strContains tn "answer" = true) :
    processEvent (some req) res = Except.ok none := by
  have hunknown : tn ≠ "unknown" := by
    rcases hans with rfl | hc
    · decide
    · intro hh
      subst hh
      exact absurd hc (by decide)
  have hb : (tn == "answer" || strContains tn "answer") = true := by
    rcases hans with rfl | hc
    · simp
    · simp [hc]
  cases req with
  | null => exact absurd (Json.str.inj htn.symm) hunknown
  | bool b => exact absurd (Json.str.inj htn.symm) hunknown
  | num n => exact absurd (Json.str.inj htn.symm) hunknown
  | str s => exact absurd (Json.str.inj htn.symm) hunknown
  | arr elems => exact absurd (Json.str.inj htn.symm) hunknown
  | obj fields =>
    cases hf : fields.lookup "tool_name" with
    | none =>
      rw [Json.get?, hf] at htn
      exact absurd (Json.str.inj htn.symm) hunknown
    | some v =>
      have hv : v = Json.str tn := by
        rw [Json.get?, hf] at htn
        exact htn
      subst hv
      have hne : fields ≠ [] := by
        intro hnil
        subst hnil
        simp [List.lookup] at hf
      simp [processEvent, Json.truthy, Json.get?, hf, hne, hb]
      rfl

/-- C8: answer-action suppression. Processing skips every event whose tool
name is `answer` or contains `answer` as a substring, and consequently the
formatting loop emits no numbered line for such an event — prepending it to
any event sequence leaves the formatted output unchanged. -/
theorem answer_action_suppression :
    (∀ (req : Json) (res : Option Json) (tn : String),
      (req.get? "tool_name").getD (Json.str "unknown") = Json.str tn →
      (tn = "answer" ∨ strContains tn "answer" = true) →
      processEvent (some req) res = Except.ok none) ∧
    (∀ (req : Json) (res : Option Json) (tn : String) (n : Nat)
       (rest : List (Option Json × Option Json)),
      (req.get? "tool_name").getD (Json.str "unknown") = Json.str tn →
      (tn = "answer" ∨ strContains tn "answer" = true) →
      formatSteps n ((some req, res) :: rest) = formatSteps n rest) := by
  refine ⟨processEvent_answer_skip, fun req res tn n rest htn hans => ?_⟩
  have hskip := processEvent_answer_skip req res tn htn hans
  simp [formatSteps, hskip]

/-- C8 witness: the `answer` event of the demo store is skipped, and emits
no line when prepended to the empty sequence. -/
theorem answer_action_suppression_witness :
    processEvent
        (some (Json.obj [("tool_name", Json.str "answer"),
                         ("args", Json.obj [("text", Json.str "42")])]))
        (some (Json.str "ValidatedAnswer success=True")) = Except.ok none ∧
    formatSteps 1
        [(some (Json.obj [("tool_name", Json.str "answer"),
                          ("args", Json.obj [("text", Json.str "42")])]),
          some (Json.str "ValidatedAnswer success=True"))] =
      formatSteps 1 [] :=
  ⟨answer_action_suppression.1 _ _ "answer" rfl (Or.inl rfl),
   answer_action_suppression.2 _ _ "answer" 1 [] rfl (Or.inl rfl)⟩

/-- The formatting loop, started at `n`, produces exactly one line per
surviving event, numbered consecutively from `n`, in input order. -/
theorem formatSteps_ok_spec :
    ∀ (evts : List (Option Json × Option Json)) (n : Nat) (lines : List String),
      formatSteps n evts = Except.ok lines →
      lines.length = countSurvivors evts ∧
      ∀ (i : Nat) (hi : i < lines.length),
        ∃ s : String, lines.get ⟨i, hi⟩ = toString (n + i) ++ ". " ++ s := by
  intro evts
  induction evts with
  | nil =>
    intro n lines h
    simp only [formatSteps] at h
    injection h with h'
    subst h'
    exact ⟨rfl, fun i hi => absurd hi (by simp)⟩
  | cons e rest ih =>
    intro n lines h
    obtain ⟨req, res⟩ := e
    simp only [formatSteps] at h
    cases hp : processEvent req res with
    | error u =>
      rw [hp] at h
      simp at h
    | ok o =>
      rw [hp] at h
      cases o with
      | none =>
        rw [exceptBindOk] at h
        rcases ih n lines h with ⟨hlen, hidx⟩
        refine ⟨?_, hidx⟩
        rw [hlen]
        simp [countSurvivors, hp]
      | some p =>
        obtain ⟨name, det⟩ := p
        rw [exceptBindOk] at h
        cases hrest : formatSteps (n + 1) rest with
        | error u =>
          rw [hrest] at h
          simp at h
        | ok tl =>
          rw [hrest] at h
          simp only [exceptBindOk] at h
          injection h with h'
          subst h'
          rcases ih (n + 1) tl hrest with ⟨hlen, hidx⟩
          constructor
          · simp only [countSurvivors, hp, List.length_cons, hlen]
            omega
          · intro i hi
            cases i with
            | zero =>
              refine ⟨name ++ "(" ++ (det ++ ")"), ?_⟩
              show toString n ++ ". " ++ name ++ "(" ++ det ++ ")" =
                toString (n + 0) ++ ". " ++ (name ++ "(" ++ (det ++ ")"))
              rw [Nat.add_zero]
              simp [String.append_assoc]
            | succ j =>
              have hj : j < tl.length := by
                simpa using hi
              rcases hidx j hj with ⟨s, hs⟩
              refine ⟨s, ?_⟩
              have harith : n + (j + 1) = n + 1 + j := by omega
              rw [harith]
              exact hs

/-- C9: contiguous numbering of surviving events. When the loop (started at
step number 1, as in the source) succeeds, it emits exactly one line per
surviving event — not per raw event — and the i-th emitted line (0-based)
carries the number `i + 1`, so numbering is contiguous from 1 and follows
the input order. -/
theorem contiguous_numbering (evts : List (Option Json × Option Json))
    (lines : List String) (h : formatSteps 1 evts = Except.ok lines) :
    lines.length = countSurvivors evts ∧
    ∀ (i : Nat) (hi : i < lines.length),
      ∃ s : String, lines.get ⟨i, hi⟩ = toString (i + 1) ++ ". " ++ s := by
  rcases formatSteps_ok_spec evts 1 lines h with ⟨hlen, hidx⟩
  refine ⟨hlen, fun i hi => ?_⟩
  rcases hidx i hi with ⟨s, hs⟩
  refine ⟨s, ?_⟩
  rw [hs, Nat.add_comm]

/-- C9 witness (Scenario B): the demo trajectory has exactly 3 tool-result
event rows, one of them an `answer` event; the formatted output has exactly
2 numbered lines, each carrying its contiguous number. -/
theorem contiguous_numbering_witness :
    (fetchEvents demoDB 1).length = 3 ∧
    countSurvivors (eventPairs (fetchEvents demoDB 1)) = 2 ∧
    (["1. click(\x7b\"selector\": \"#buy\", \"coordinates\": \x7b\"x\": 10, \"y\": 20\x7d\x7d)",
      "2. type(\x7b\"text\": \"hello\", \"viewport_size\": \x7b\"w\": 800\x7d\x7d)"].length =
        countSurvivors (eventPairs (fetchEvents demoDB 1)) ∧
     ∀ (i : Nat)
       (hi : i < (["1. click(\x7b\"selector\": \"#buy\", \"coordinates\": \x7b\"x\": 10, \"y\": 20\x7d\x7d)",
                   "2. type(\x7b\"text\": \"hello\", \"viewport_size\": \x7b\"w\": 800\x7d\x7d)"] :
                    List String).length),
       ∃ s : String,
         (["1. click(\x7b\"selector\": \"#buy\", \"coordinates\": \x7b\"x\": 10, \"y\": 20\x7d\x7d)",
           "2. type(\x7b\"text\": \"hello\", \"viewport_size\": \x7b\"w\": 800\x7d\x7d)"] :
            List String).get ⟨i, hi⟩ = toString (i + 1) ++ ". " ++ s) :=
  ⟨rfl, rfl,
   contiguous_numbering (eventPairs (fetchEvents demoDB 1))
     ["1. click(\x7b\"selector\": \"#buy\", \"coordinates\": \x7b\"x\": 10, \"y\": 20\x7d\x7d)",
      "2. type(\x7b\"text\": \"hello\", \"viewport_size\": \x7b\"w\": 800\x7d\x7d)"] rfl⟩

/-- C7 counterexample: wrapping is not idempotent on arbitrary strings. The
marker the wrapper checks for (`"## Similar Trajectory"`) does not occur in
the header it prepends (which says `"## Reference Trajectory"`), so a second
application wraps the already-wrapped text again. -/
theorem instruction_wrapping_idempotence_counterexample :
    format_trajectory_as_instructions (format_trajectory_as_instructions "a") ≠
      format_trajectory_as_instructions "a" := by
  decide

/-- C7 amended: wrapping is idempotent on text that already carries the
distinguishing marker `"## Similar Trajectory"` — such text is returned
unmodified, so a second application changes nothing. (On text without the
marker, a second application double-wraps, as the counterexample shows.) -/
theorem instruction_wrapping_idempotence_amended (x : String)
    (h : strContains x "## Similar Trajectory" = true) :
    format_trajectory_as_instructions (format_trajectory_as_instructions x) =
      format_trajectory_as_instructions x := by
  have hne : (x == "") = false := by
    by_cases hx : x = ""
    · subst hx
      exact absurd h (by decide)
    · simp [hx]
  have hfix : format_trajectory_as_instructions x = x := by
    unfold format_trajectory_as_instructions
    simp [hne, h]
  rw [hfix, hfix]

/-- C7 amended witness: idempotence at a concrete marker-carrying string. -/
theorem instruction_wrapping_idempotence_witness :
    strContains "steps\n## Similar Trajectory\n1. click" "## Similar Trajectory" = true ∧
    format_trajectory_as_instructions
        (format_trajectory_as_instructions "steps\n## Similar Trajectory\n1. click") =
      format_trajectory_as_instructions "steps\n## Similar Trajectory\n1. click" :=
  ⟨by decide, instruction_wrapping_idempotence_amended _ (by decide)⟩

/-- C2 counterexample: in Scenario A (no tenant id) the task is returned
unchanged, but store access IS attempted: the session body issues the
best-effort `CREATE EXTENSION IF NOT EXISTS pg_trgm` statement (lines 42–47
of database.py) before the tenant gate of lines 54–62 — the gate does not
short-circuit ahead of every statement issued to the store. -/
theorem tenant_gate_short_circuit_counterexample :
    retrieve_trajectory simExact demoDB ⟨"find price", "https://x"⟩ none =
      ⟨"find price", "https://x"⟩ ∧
    (get_similar_trajectory simExact demoDB "find price" "https://x" none).2 =
      [StoreOp.createExtension] ∧
    (get_similar_trajectory simExact demoDB "find price" "https://x" none).2 ≠ [] :=
  ⟨rfl, rfl, by decide⟩

/-- C2 amended: for an absent, empty or placeholder tenant id the retrieval
step returns the task unchanged, issues neither the candidate query nor the
event query — only the best-effort extension-creation statement, which
precedes the gate — and its result does not depend on the store contents. -/
theorem tenant_gate_short_circuit_amended (sim : String → String → ℚ) (db : DB)
    (task : Task) (org_id : Option String)
    (h : org_id = none ∨ org_id = some "" ∨
         ∃ oid, org_id = some oid ∧ oid ∈ placeholderOrgIds) :
    retrieve_trajectory sim db task org_id = task ∧
    (get_similar_trajectory sim db task.objective task.start_url org_id).2 =
      [StoreOp.createExtension] ∧
    ∀ (db' : DB),
      (get_similar_trajectory sim db task.objective task.start_url org_id).1 =
      (get_similar_trajectory sim db' task.objective task.start_url org_id).1 := by
  rcases h with rfl | rfl | ⟨oid, rfl, hmem⟩
  · exact ⟨rfl, rfl, fun _ => rfl⟩
  · exact ⟨rfl, rfl, fun _ => rfl⟩
  · have : oid = "your-org-id-here" ∨ oid = "test" ∨ oid = "example" := by
      simpa [placeholderOrgIds] using hmem
    rcases this with rfl | rfl | rfl
    · exact ⟨rfl, rfl, fun _ => rfl⟩
    · exact ⟨rfl, rfl, fun _ => rfl⟩
    · exact ⟨rfl, rfl, fun _ => rfl⟩

/-- C2 amended witness: the amended statement at the placeholder id `test`. -/
theorem tenant_gate_short_circuit_witness :
    retrieve_trajectory simExact demoDB ⟨"find price", "https://x"⟩ (some "test") =
      ⟨"find price", "https://x"⟩ ∧
    (get_similar_trajectory simExact demoDB "find price" "https://x" (some "test")).2 =
      [StoreOp.createExtension] ∧
    ∀ (db' : DB),
      (get_similar_trajectory simExact demoDB "find price" "https://x" (some "test")).1 =
      (get_similar_trajectory simExact db' "find price" "https://x" (some "test")).1 :=
  tenant_gate_short_circuit_amended simExact demoDB ⟨"find price", "https://x"⟩
    (some "test") (Or.inr (Or.inr ⟨"test", rfl, by decide⟩))

/-- C10: exact extent of the tenant gate. The candidate query is issued to
the store exactly when the tenant id is a non-empty string other than the
three literal placeholders; for `none`, the empty string, or a placeholder,
the gate blocks and no trajectory is returned (the empty string is treated
the same as an absent id, both being falsy). -/
theorem tenant_gate_exact_extent (sim : String → String → ℚ) (db : DB)
    (objv url : String) (org_id : Option String) :
    (StoreOp.candidateQuery ∈ (get_similar_trajectory sim db objv url org_id).2 ↔
      ¬(org_id = none ∨ org_id = some "" ∨ org_id = some "your-org-id-here" ∨
        org_id = some "test" ∨ org_id = some "example")) ∧
    ((org_id = none ∨ org_id = some "" ∨ org_id = some "your-org-id-here" ∨
      org_id = some "test" ∨ org_id = some "example") →
      (get_similar_trajectory sim db objv url org_id).1 = none) := by
  cases org_id with
  | none => simp [get_similar_trajectory]
  | some oid =>
    by_cases h1 : oid = ""
    · subst h1
      simp [get_similar_trajectory]
    · by_cases h2 : oid ∈ placeholderOrgIds
      · have h2' : oid = "your-org-id-here" ∨ oid = "test" ∨ oid = "example" := by
          simpa [placeholderOrgIds] using h2
        rcases h2' with rfl | rfl | rfl <;>
          simp +decide [get_similar_trajectory, placeholderOrgIds]
      · have h2' : ¬(oid = "your-org-id-here" ∨ oid = "test" ∨ oid = "example") := by
          simpa [placeholderOrgIds] using h2
        have hmem : StoreOp.candidateQuery ∈
            (get_similar_trajectory sim db objv url (some oid)).2 := by
          simp only [get_similar_trajectory]
          rw [if_neg (by simp [h1]), if_neg (by simpa [placeholderOrgIds] using h2)]
          cases hsel : selectTrajectory sim db objv url oid with
          | none => simp
          | some t =>
            split
            · rename_i heq
              exact absurd heq (by simp)
            · rename_i b heq
              injection heq with heq'
              subst heq'
              by_cases hemp : (fetchEvents db t.id).isEmpty = true
              · simp [hemp]
              · rw [if_neg hemp]
                cases formatSteps 1 (eventPairs (fetchEvents db t.id)) <;> simp
        refine ⟨⟨fun _ => ?_, fun _ => hmem⟩, fun hcon => ?_⟩
        · simp only [Option.some.injEq]
          push_neg
          exact ⟨by simp, h1, fun hh => absurd (Or.inl hh) h2',
            fun hh => absurd (Or.inr (Or.inl hh)) h2',
            fun hh => absurd (Or.inr (Or.inr hh)) h2'⟩
        · rcases hcon with hc | hc | hc | hc | hc
          · exact absurd hc (by simp)
          · exact absurd (Option.some.inj hc) h1
          · exact absurd (Or.inl (Option.some.inj hc)) h2'
          · exact absurd (Or.inr (Or.inl (Option.some.inj hc))) h2'
          · exact absurd (Or.inr (Or.inr (Option.some.inj hc))) h2'

/-- C10 witness: the gate at a genuine tenant id (candidate query issued)
and at the empty string (no trajectory returned). -/
theorem tenant_gate_exact_extent_witness :
    StoreOp.candidateQuery ∈
      (get_similar_trajectory simExact demoDB "find price" "https://x"
        (some "org-123")).2 ∧
    (get_similar_trajectory simExact demoDB "find price" "https://x" (some "")).1 =
      none :=
  ⟨(tenant_gate_exact_extent simExact demoDB "find price" "https://x"
      (some "org-123")).1.mpr (by decide),
   (tenant_gate_exact_extent simExact demoDB "find price" "https://x"
      (some "")).2 (Or.inr (Or.inl rfl))⟩

end AgentRouter
